import Mathlib

/-
Verification of the escpy elastic-stability-conditions package.

The package checks 6x6 Voigt stiffness tensors against per-crystal-class
symmetry patterns (`escpy/elasticity.py`) and Born stability conditions
(`escpy/crystal.py`).  Matrix entries are modelled as rationals; the numpy
float64 entries of the source are real numbers and every operation the
claims touch is exact arithmetic and comparison, so ℚ is an adequate
executable carrier.

Fallible Python code is modelled with `Option`: a property that raises
(TypeError etc.) is `none`.
-/

namespace Escpy

/-- A 6x6 stiffness tensor in Voigt notation, 0-based indices as in the
Python source (`c[i, j]`). -/
abbrev Mat : Type := Fin 6 → Fin 6 → ℚ

/-- Python's `abs` / numpy's `absolute`, written with an executable `if`. -/
def rabs (x : ℚ) : ℚ :=
  if x < 0 then -x else x

/-- numpy's default relative tolerance `rtol = 1e-5` used by `np.isclose`
and `np.allclose` when only `atol` is passed, as the source does. -/
def rtolDefault : ℚ := 1 / 100000

/-- `np.isclose(a, b, atol)`: `|a - b| <= atol + rtol * |b|` with the
default `rtol = 1e-5`. -/
def isclose (a b atol : ℚ) : Bool :=
  decide (rabs (a - b) ≤ atol + rtolDefault * rabs b)

/-- `np.allclose(xs, zeros, atol)`, used by the Orthorhombic and Monoclinic
symmetry rule sets on column slices compared against `np.full(n, 0)`. -/
def allcloseZero (xs : List ℚ) (atol : ℚ) : Bool :=
  xs.all fun x => isclose x 0 atol

/-- The 36 entries of the tensor, row-major, as `np.unique` flattens them. -/
def entriesList (c : Mat) : List ℚ :=
  (List.finRange 6).flatMap fun i => (List.finRange 6).map fun j => c i j

/-- `len(np.unique(c))`: the number of distinct scalar values among the 36
entries of the tensor. -/
def uniqueCount (c : Mat) : ℕ :=
  (entriesList c).dedup.length

/-- The seven crystal systems dispatched by the two engines. -/
inductive Laue
  | cubic
  | hexagonal
  | tetragonal
  | rhombohedral
  | orthorhombic
  | monoclinic
  | triclinic
  deriving DecidableEq

/- ===================== Symmetry Engine (elasticity.py) ===================== -/

/-- `CubicSystemStiffnessMatrix.symmetry_conditions` (elasticity.py line 92)
executes `np.array(c[0, 1], c[0, 2], c[1, 2], c[1, 0], c[2, 0], c[2, 1])`:
`np.array` takes at most two positional arguments (`object`, `dtype`), so the
call raises `TypeError` on every input before any condition is built.
Modelled as an always-failing computation. -/
def cubicSymmetryConditions (_c : Mat) (_eps : ℚ) : Option (List Bool) :=
  none

/-- `HexagonalSystemStiffnessMatrix.symmetry_conditions`. -/
def hexagonalSymmetryConditions (c : Mat) (eps : ℚ) : Option (List Bool) :=
  some [
    isclose (c 0 0) (c 1 1) eps,
    isclose (c 3 3) (c 4 4) eps,
    isclose (c 0 2) (c 1 2) eps,
    isclose (c 5 5) ((1 / 2) * (c 0 0 - c 0 1)) eps
  ]

/-- `TetragonalSystemStiffnessMatrix.symmetry_conditions`: Tetragonal (I)
when `c[0, 5] == 0` (exact float equality in the source), Tetragonal (II)
otherwise. -/
def tetragonalSymmetryConditions (c : Mat) (eps : ℚ) : Option (List Bool) :=
  if c 0 5 = 0 then
    some [
      isclose (c 0 0) (c 1 1) eps,
      isclose (c 3 3) (c 4 4) eps,
      isclose (c 0 2) (c 1 2) eps
    ]
  else
    some [
      isclose (c 0 0) (c 1 1) eps,
      isclose (c 3 3) (c 4 4) eps,
      isclose (c 0 2) (c 1 2) eps,
      isclose (c 0 5) (-c 1 5) eps
    ]

/-- The Rhombohedral (I) symmetry condition list (5 conditions). -/
def rhombohedralSymmetryCondsI (c : Mat) (eps : ℚ) : List Bool :=
  [
    isclose (c 0 0) (c 1 1) eps,
    isclose (c 3 3) (c 4 4) eps,
    isclose (c 0 2) (c 1 2) eps,
    isclose (c 5 5) ((1 / 2) * (c 0 0 - c 0 1)) eps,
    isclose (c 0 3) (-c 1 3) eps && isclose (c 0 3) (-c 4 5) eps
  ]

/-- The Rhombohedral (II) symmetry condition list (6 conditions). -/
def rhombohedralSymmetryCondsII (c : Mat) (eps : ℚ) : List Bool :=
  [
    isclose (c 0 0) (c 1 1) eps,
    isclose (c 3 3) (c 4 4) eps,
    isclose (c 0 2) (c 1 2) eps,
    isclose (c 5 5) ((1 / 2) * (c 0 0 - c 0 1)) eps,
    isclose (c 0 3) (-c 1 3) eps && isclose (c 0 3) (-c 4 5) eps,
    isclose (c 1 4) (-c 0 4) eps && isclose (c 3 5) (-c 0 4) eps
  ]

/-- `RhombohedralSystemStiffnessMatrix.symmetry_conditions`: Rhombohedral (I)
when `c[0, 4] == 0` (exact float equality), Rhombohedral (II) otherwise. -/
def rhombohedralSymmetryConditions (c : Mat) (eps : ℚ) : Option (List Bool) :=
  if c 0 4 = 0 then some (rhombohedralSymmetryCondsI c eps)
  else some (rhombohedralSymmetryCondsII c eps)

/-- The fourth Orthorhombic symmetry condition,
`len(np.unique(c)) == 9`. -/
def orthorhombicCountCondition (c : Mat) : Bool :=
  decide (uniqueCount c = 9)

/-- `OrthorhombicSystemStiffnessMatrix.symmetry_conditions` (4 conditions). -/
def orthorhombicSymmetryConditions (c : Mat) (eps : ℚ) : Option (List Bool) :=
  some [
    allcloseZero [c 0 3, c 1 3, c 2 3] eps,
    allcloseZero [c 0 4, c 1 4, c 2 4, c 3 4] eps,
    allcloseZero [c 0 5, c 1 5, c 2 5, c 3 5, c 4 5] eps,
    orthorhombicCountCondition c
  ]

/-- `MonoclinicSystemStiffnessMatrix.symmetry_conditions` (4 conditions). -/
def monoclinicSymmetryConditions (c : Mat) (eps : ℚ) : Option (List Bool) :=
  some [
    allcloseZero [c 0 3, c 1 3, c 2 3] eps,
    decide (rabs (c 3 4) < eps),
    allcloseZero [c 0 5, c 1 5, c 2 5] eps && decide (rabs (c 4 5) < eps),
    decide (uniqueCount c = 13)
  ]

/-- `TriclinicSystemStiffnessMatrix.symmetry_conditions` (1 condition). -/
def triclinicSymmetryConditions (c : Mat) (_eps : ℚ) : Option (List Bool) :=
  some [decide (uniqueCount c = 21)]

/-- Class dispatch for `symmetry_conditions`. -/
def symmetryConditions : Laue → Mat → ℚ → Option (List Bool)
  | .cubic => cubicSymmetryConditions
  | .hexagonal => hexagonalSymmetryConditions
  | .tetragonal => tetragonalSymmetryConditions
  | .rhombohedral => rhombohedralSymmetryConditions
  | .orthorhombic => orthorhombicSymmetryConditions
  | .monoclinic => monoclinicSymmetryConditions
  | .triclinic => triclinicSymmetryConditions

/-- Class dispatch for `symmetry_conditions_text`.  The Orthorhombic list has
only THREE strings: the source forgot a comma after the third literal, so the
third and fourth adjacent string literals merge into one string. -/
def symmetryConditionsText : Laue → Mat → Option (List String)
  | .cubic => fun _c => some [
      "C_{11} = C_{22} = C_{33}",
      "C_{44} = C_{55} = C_{66}",
      "C_{12} = C_{13} = C_{23} = C_{21} = C_{31} = C_{32}"
    ]
  | .hexagonal => fun _c => some [
      "C_{11} = C_{22}",
      "C_{44} = C_{55}",
      "C_{13} = C_{23}",
      "C_{66} = 1 / 2 (C_{11} - C_{12})"
    ]
  | .tetragonal => fun c =>
      if c 0 5 = 0 then some [
        "C_{11} = C_{22}",
        "C_{44} = C_{55}",
        "C_{13} = C_{23}"
      ]
      else some [
        "C_{11} = C_{22}",
        "C_{44} = C_{55}",
        "C_{13} = C_{23}",
        "C_{16} = -C_{26}"
      ]
  | .rhombohedral => fun c =>
      if c 0 4 = 0 then some [
        "C_{11} == C_{22}",
        "C_{44} = C_{55}",
        "C_{13} = C_{23}",
        "C_{66} = 1 / 2 (C_{11} - C_{12})",
        "C_{14} = -C_{24} = -C_{56}"
      ]
      else some [
        "C_{11} == C_{22}",
        "C_{44} = C_{55}",
        "C_{13} = C_{23}",
        "C_{66} = 1 / 2 (C_{11} - C_{12})",
        "C_{14} = -C_{24} = -C_{56}",
        "-C_{15} = C_{25} = C_{46}"
      ]
  | .orthorhombic => fun _c => some [
      "C_{14} = C_{24} = C_{34} = 0",
      "C_{15} = C_{25} = C_{35} = C_{45} = 0",
      "C_{16} = C_{26} = C_{36} = C_{46} = C_{56} = 0There are 9 independent values."
    ]
  | .monoclinic => fun _c => some [
      "C_{14} = C_{24} = C_{34} = 0",
      "C_{45} = 0",
      "C_{16} = C_{26} = C_{36} = C_{56} = 0",
      "There are 13 independent values."
    ]
  | .triclinic => fun _c => some [
      "There are 21 independent values."
    ]

/- ===================== Aggregator / Reporter ===================== -/

/-- The diagnostic line printed for a failed criterion,
`"Criterion ${0}$ is not satisfied!".format(text)`. -/
def fmtLine (t : String) : String :=
  "Criterion $" ++ t ++ "$ is not satisfied!"

/-- The loop body shared by `StiffnessMatrix.validate` and
`CrystalSystem.check_ns_conditions`: iterate over the zipped
(condition, text) pairs, emit one line per failed condition, return
`True` iff none failed. -/
def checkReport (ps : List (Bool × String)) : Bool × List String :=
  (ps.all Prod.fst, (ps.filter fun p => !p.1).map fun p => fmtLine p.2)

/-- `StiffnessMatrix.validate(outfile)`: `zip(symmetry_conditions,
symmetry_conditions_text)` evaluates both properties (propagating any
exception they raise), then runs the reporting loop.  Python's `zip`
truncates to the shorter list.  Result: `(returned flag, printed lines)`. -/
def validate (k : Laue) (c : Mat) (eps : ℚ) : Option (Bool × List String) :=
  match symmetryConditions k c eps, symmetryConditionsText k c with
  | some cs, some ts => some (checkReport (cs.zip ts))
  | _, _ => none

/- ===================== Stability Engine (crystal.py) ===================== -/

/-- `CubicSystem.ns_conditions`. -/
def cubicNsConditions (c : Mat) : Option (List Bool) :=
  some [
    decide (c 0 0 > rabs (c 0 1)),
    decide (c 0 0 + 2 * c 0 1 > 0),
    decide (c 3 3 > 0)
  ]

/-- `HexagonalSystem.ns_conditions`, with `c66 = (c11 - c12) / 2` derived. -/
def hexagonalNsConditions (c : Mat) : Option (List Bool) :=
  some [
    decide (c 0 0 > rabs (c 0 1)),
    decide (2 * (c 0 2) ^ 2 < c 2 2 * (c 0 0 + c 0 1)),
    decide (c 3 3 > 0),
    decide ((c 0 0 - c 0 1) / 2 > 0)
  ]

/-- `TetragonalSystem.ns_conditions`: Tetragonal (I) when `c16 == 0`
(`c16 = c[0, 5]`, exact float equality), Tetragonal (II) otherwise. -/
def tetragonalNsConditions (c : Mat) : Option (List Bool) :=
  if c 0 5 = 0 then
    some [
      decide (c 0 0 > rabs (c 0 1)),
      decide (2 * (c 0 2) ^ 2 < c 2 2 * (c 0 0 + c 0 1)),
      decide (c 3 3 > 0),
      decide (c 5 5 > 0)
    ]
  else
    some [
      decide (c 0 0 > rabs (c 0 1)),
      decide (2 * (c 0 2) ^ 2 < c 2 2 * (c 0 0 + c 0 1)),
      decide (c 3 3 > 0),
      decide (2 * (c 0 5) ^ 2 < c 5 5 * (c 0 0 - c 0 1))
    ]

/-- `RhombohedralSystem.ns_conditions`: Rhombohedral (I) when `c15 == 0`
(`c15 = c[0, 4]`, exact float equality), Rhombohedral (II) otherwise.  The
fifth condition is an exact float equality test. -/
def rhombohedralNsConditions (c : Mat) : Option (List Bool) :=
  if c 0 4 = 0 then
    some [
      decide (c 0 0 > rabs (c 0 1)),
      decide (c 3 3 > 0),
      decide ((c 0 2) ^ 2 < (1 / 2) * c 2 2 * (c 0 0 + c 0 1)),
      decide ((c 0 3) ^ 2 < (1 / 2) * c 3 3 * (c 0 0 - c 0 1)),
      decide ((1 / 2) * c 3 3 * (c 0 0 - c 0 1) = c 3 3 * c 5 5)
    ]
  else
    some [
      decide (c 0 0 > rabs (c 0 1)),
      decide (c 3 3 > 0),
      decide ((c 0 2) ^ 2 < (1 / 2) * c 2 2 * (c 0 0 + c 0 1)),
      decide ((c 0 3) ^ 2 + (c 0 4) ^ 2 < (1 / 2) * c 3 3 * (c 0 0 - c 0 1)),
      decide ((1 / 2) * c 3 3 * (c 0 0 - c 0 1) = c 3 3 * c 5 5)
    ]

/-- `OrthorhombicSystem.ns_conditions` (6 conditions). -/
def orthorhombicNsConditions (c : Mat) : Option (List Bool) :=
  some [
    decide (c 0 0 > 0),
    decide (c 0 0 * c 1 1 > (c 0 1) ^ 2),
    decide (c 0 0 * c 1 1 * c 2 2 + 2 * c 0 1 * c 0 2 * c 1 2 >
      c 0 0 * (c 1 2) ^ 2 + c 1 1 * (c 0 2) ^ 2 + c 2 2 * (c 0 1) ^ 2),
    decide (c 3 3 > 0),
    decide (c 4 4 > 0),
    decide (c 5 5 > 0)
  ]

/-- The seventh element of `MonoclinicSystem.ns_conditions` as the source
writes it contains `c23 ^ 2`, `c13 ^ 2` and `c12 ^ 2` where `^` is Python's
bitwise xor: applied to numpy float64 operands it raises
`TypeError: ufunc bitwise_xor not supported`, so building the condition list
raises on every input.  Modelled as an always-failing computation. -/
def monoclinicSeventhValue (_c : Mat) : Option ℚ :=
  none

/-- `MonoclinicSystem.ns_conditions`: the first six conditions evaluate, the
seventh raises (see `monoclinicSeventhValue`), so the whole property
raises. -/
def monoclinicNsConditions (c : Mat) : Option (List Bool) :=
  (monoclinicSeventhValue c).map fun v =>
    [
      decide (c 0 0 > 0) && (decide (c 1 1 > 0) && (decide (c 2 2 > 0) &&
        (decide (c 3 3 > 0) && (decide (c 4 4 > 0) && decide (c 5 5 > 0))))),
      decide (c 0 0 + c 1 1 + c 2 2 + 2 * (c 0 1 + c 0 2 + c 1 2) > 0),
      decide (c 2 2 * c 4 4 - (c 2 4) ^ 2 > 0),
      decide (c 3 3 * c 5 5 - (c 3 5) ^ 2 > 0),
      decide (c 1 1 + c 2 2 - 2 * c 1 2 > 0),
      decide (c 1 1 * (c 2 2 * c 4 4 - (c 2 4) ^ 2) + 2 * c 1 2 * c 1 4 * c 2 4 -
        (c 1 2) ^ 2 * c 4 4 - (c 1 4) ^ 2 * c 2 2 > 0),
      decide (v > 0)
    ]

/-- `TriclinicSystem.ns_conditions` returns Python `None` instead of the
`List[bool]` its abstract declaration promises; the aggregate check then
calls `zip(None, None)` which raises `TypeError`.  Modelled as a failing
computation. -/
def triclinicNsConditions (_c : Mat) : Option (List Bool) :=
  none

/-- Class dispatch for `ns_conditions`.  The stability engine uses exact
comparisons only, so no tolerance parameter appears. -/
def nsConditions : Laue → Mat → Option (List Bool)
  | .cubic => cubicNsConditions
  | .hexagonal => hexagonalNsConditions
  | .tetragonal => tetragonalNsConditions
  | .rhombohedral => rhombohedralNsConditions
  | .orthorhombic => orthorhombicNsConditions
  | .monoclinic => monoclinicNsConditions
  | .triclinic => triclinicNsConditions

/-- Class dispatch for `ns_conditions_text`.  `TriclinicSystem` returns
Python `None` (not a list), modelled as `none`. -/
def nsConditionsText : Laue → Mat → Option (List String)
  | .cubic => fun _c => some [
      "C_{11} > | C_{12} |",
      "C_{11} + 2 C_{12} > 0",
      "C_{44} > 0"
    ]
  | .hexagonal => fun _c => some [
      "C_{11} > | C_{12} |",
      "2 C_{13}^2 < C_{33} (C_{11} + C_{12})",
      "C_{44} > 0",
      "C_{66} > 0"
    ]
  | .tetragonal => fun c =>
      if c 0 5 = 0 then some [
        "C_{11} > | C_{12} |",
        "2 C_{13}^2 < C_{33} (C_{11} + C_{12})",
        "C_{44} > 0",
        "C_{66} > 0"
      ]
      else some [
        "C_{11} > | C_{12} |",
        "2 C_{13}^2 < C_{33} (C_{11} + C_{12})",
        "C_{44} > 0",
        "2 C_{16}^2 < C_{66} (C_{11} - C_{12})"
      ]
  | .rhombohedral => fun c =>
      if c 0 4 = 0 then some [
        "C_{11} > | C_{12} |",
        "C_{44} > 0",
        "C_{13}^2 < 1/2 C_{33} (C_{11} + C_{12})",
        "C_{14}^2 < 1/2 C_{44} (C_{11} - C_{12})",
        "1/2 C_{44} (C_{11} - C_{12}) = C_{44} * C_{66}"
      ]
      else some [
        "C_{11} > | C_{12} |",
        "C_{44} > 0",
        "C_{13}^2 < 1/2 C_{33} (C_{11} + C_{12})",
        "C_{14}^2 + C_{15}^2 < 1/2 C_{44} (C_{11} - C_{12})",
        "1/2 C_{44} (C_{11} - C_{12}) = C_{44} * C_{66}"
      ]
  | .orthorhombic => fun _c => some [
      "C_{11} > 0",
      "C_{11} C_{22} > C_{12}^2",
      "C_{11} C_{22} C_{33} + 2 C_{12} C_{13} C_{23} > C_{11} C_{23}^2 + C_{22} C_{13}^2 + C_{33} C_{12}^2",
      "C_{44} > 0",
      "C_{55} > 0",
      "C_{66} > 0"
    ]
  | .monoclinic => fun _c => some [
      "C_{ii} > 0",
      "C_{11} + C_{22} + C_{33} + 2 * (C_{12} + C_{13} + C_{23})",
      "C_{33} * C_{55} - C_{35}^2 > 0",
      "C_{44} * C_{66} - C_{46}^2 > 0",
      "C_{22} + C_{33} - 2 * C_{23}  > 0",
      "C_{22} * (C_{33} * C_{55} - C_{35}^2) + 2 * C_{23} * C_{25} * C_{35} - c23^2 * c55 - c25^2 * c33> 0",
      "The last criterion"
    ]
  | .triclinic => fun _c => none

/-- `CrystalSystem.check_ns_conditions(outfile)`: same reporting loop as
`validate`, over the stability Condition Set. -/
def checkNsConditions (k : Laue) (c : Mat) : Option (Bool × List String) :=
  match nsConditions k c, nsConditionsText k c with
  | some cs, some ts => some (checkReport (cs.zip ts))
  | _, _ => none

/- ===================== Tolerance (eps) attribute ===================== -/

/-- A value assigned to the `eps` attribute: a Python number, or anything
that is not an `int`/`float`. -/
inductive EpsInput
  | num (x : ℚ)
  | nonNumeric

/-- Mutable state of a `StiffnessMatrix` validator: the held tensor and the
instance tolerance. -/
structure SMState where
  mat : Mat
  eps : ℚ

/-- `StiffnessMatrix.__init__`: stores the tensor and sets `_eps = 1e-8`. -/
def initState (m : Mat) : SMState :=
  { mat := m, eps := 1 / 100000000 }

/-- Result of running the `eps` setter: the state afterwards, whether a
`TypeError` was raised, and whether a warning was emitted. -/
structure EpsSetResult where
  state : SMState
  raised : Bool
  warned : Bool

/-- The `eps.setter`: a non-numeric value raises `TypeError` before the
assignment, leaving the stored tolerance unchanged; a numeric value with
`abs(value) > 1` warns and is still assigned; any numeric value is
assigned. -/
def setEps (s : SMState) : EpsInput → EpsSetResult
  | .nonNumeric => { state := s, raised := true, warned := false }
  | .num x => { state := { s with eps := x }, raised := false, warned := decide (1 < rabs x) }

/- ===================== Concrete tensors and helper lemmas ===================== -/

/-- The all-zero tensor. -/
def zeroMat : Mat := fun _ _ => 0

/-- A tensor whose only nonzero entry is `c[0, 5] = 1`. -/
def tetraEx : Mat := fun i j => if i = 0 ∧ j = 5 then 1 else 0

/-- A tensor whose only nonzero entry is `c[0, 4] = 1`. -/
def rhombEx : Mat := fun i j => if i = 0 ∧ j = 4 then 1 else 0

/-- Tiling nine scalar values into the orthorhombic symmetric zero-pattern:
`v 0 .. v 5` on the diagonal, `v 6 = C01 = C10`, `v 7 = C02 = C20`,
`v 8 = C12 = C21`, all remaining entries 0. -/
def orthoTile (v : Fin 9 → ℚ) : Mat := fun i j =>
  if i = 0 ∧ j = 0 then v 0 else
  if i = 1 ∧ j = 1 then v 1 else
  if i = 2 ∧ j = 2 then v 2 else
  if i = 3 ∧ j = 3 then v 3 else
  if i = 4 ∧ j = 4 then v 4 else
  if i = 5 ∧ j = 5 then v 5 else
  if (i = 0 ∧ j = 1) ∨ (i = 1 ∧ j = 0) then v 6 else
  if (i = 0 ∧ j = 2) ∨ (i = 2 ∧ j = 0) then v 7 else
  if (i = 1 ∧ j = 2) ∨ (i = 2 ∧ j = 1) then v 8 else 0

/-- Nine distinct nonzero values. -/
def vNine : Fin 9 → ℚ := ![1, 2, 3, 4, 5, 6, 7, 8, 9]

/-- Nine distinct values, one of which is zero. -/
def vNineZ : Fin 9 → ℚ := ![1, 2, 3, 4, 5, 6, 7, 8, 0]

/-- The tiling of `vNineZ` with the governed off-diagonal entry `C01`
replaced by the fresh value 100 (its mirror `C10` untouched). -/
def mutatedTile : Mat := fun i j =>
  if i = 0 ∧ j = 1 then 100 else orthoTile vNineZ i j

theorem rabs_eq_abs (x : ℚ) : rabs x = |x| := by
  rcases le_or_lt 0 x with h | h
  · rw [rabs, if_neg (not_lt.mpr h), abs_of_nonneg h]
  · rw [rabs, if_pos h, abs_of_neg h]

theorem rabs_nonneg (x : ℚ) : 0 ≤ rabs x := by
  rw [rabs_eq_abs]; exact abs_nonneg x

theorem isclose_mono {a b e₁ e₂ : ℚ} (he : e₁ ≤ e₂) (h : isclose a b e₁ = true) :
    isclose a b e₂ = true := by
  simp only [isclose, decide_eq_true_eq] at h ⊢
  linarith

theorem allcloseZero_mono {xs : List ℚ} {e₁ e₂ : ℚ} (he : e₁ ≤ e₂)
    (h : allcloseZero xs e₁ = true) : allcloseZero xs e₂ = true := by
  simp only [allcloseZero, List.all_eq_true] at h ⊢
  exact fun x hx => isclose_mono he (h x hx)

theorem rabs_lt_mono {x e₁ e₂ : ℚ} (he : e₁ ≤ e₂) (h : decide (rabs x < e₁) = true) :
    decide (rabs x < e₂) = true := by
  simp only [decide_eq_true_eq] at h ⊢
  linarith

theorem uniqueCount_eq_card (c : Mat) :
    uniqueCount c = ((Finset.univ : Finset (Fin 6 × Fin 6)).image fun p => c p.1 p.2).card := by
  rw [uniqueCount, ← List.card_toFinset]
  have h : (entriesList c).toFinset =
      (Finset.univ : Finset (Fin 6 × Fin 6)).image fun p => c p.1 p.2 := by
    ext a
    simp only [List.mem_toFinset, entriesList, List.mem_flatMap, List.mem_map,
      List.mem_finRange, Finset.mem_image, Finset.mem_univ, true_and]
    constructor
    · rintro ⟨i, j, rfl⟩
      exact ⟨(i, j), rfl⟩
    · rintro ⟨⟨i, j⟩, rfl⟩
      exact ⟨i, j, rfl⟩
  rw [h]

theorem andClose_mono {a b a' b' e₁ e₂ : ℚ} (he : e₁ ≤ e₂)
    (h : (isclose a b e₁ && isclose a' b' e₁) = true) :
    (isclose a b e₂ && isclose a' b' e₂) = true := by
  simp only [Bool.and_eq_true] at h ⊢
  exact ⟨isclose_mono he h.1, isclose_mono he h.2⟩

theorem orthoTile_image (v : Fin 9 → ℚ) :
    ((Finset.univ : Finset (Fin 6 × Fin 6)).image fun p => orthoTile v p.1 p.2) =
      Finset.univ.image v ∪ {0} := by
  ext a
  simp only [Finset.mem_image, Finset.mem_union, Finset.mem_singleton, Finset.mem_univ, true_and]
  constructor
  · rintro ⟨⟨i, j⟩, rfl⟩
    fin_cases i <;> fin_cases j <;>
      norm_num [orthoTile] <;>
      first
        | exact Or.inl ⟨_, rfl⟩
        | exact Or.inr rfl
  · rintro (⟨k, rfl⟩ | rfl)
    · fin_cases k
      · exact ⟨(0, 0), rfl⟩
      · exact ⟨(1, 1), rfl⟩
      · exact ⟨(2, 2), rfl⟩
      · exact ⟨(3, 3), rfl⟩
      · exact ⟨(4, 4), rfl⟩
      · exact ⟨(5, 5), rfl⟩
      · exact ⟨(0, 1), rfl⟩
      · exact ⟨(0, 2), rfl⟩
      · exact ⟨(1, 2), rfl⟩
    · exact ⟨(0, 3), rfl⟩

/- ===================== Claim theorems ===================== -/

/-- C1 (counterexample): on the all-zero tensor the Orthorhombic symmetry
validator returns `True` and prints nothing, although its fourth condition
(`len(np.unique(c)) == 9`) is false — so the aggregate check is NOT `true`
iff every condition of the Condition Set holds. -/
theorem validate_true_despite_failed_condition :
    validate Laue.orthorhombic zeroMat 0 = some (true, []) ∧
    symmetryConditions Laue.orthorhombic zeroMat 0 = some [true, true, true, false] := by
  have hu : uniqueCount zeroMat = 1 := by decide
  constructor <;>
    norm_num [validate, symmetryConditions, orthorhombicSymmetryConditions,
      symmetryConditionsText, orthorhombicCountCondition, allcloseZero, isclose, rabs,
      rtolDefault, checkReport, zeroMat, hu]

/-- C1 (amended): for every class validator of either engine whose condition
list and description list both evaluate to lists, the aggregate check returns
`true` iff every condition paired with a description holds (the pairing
truncates to the shorter list), and it writes exactly one line
`Criterion $<description>$ is not satisfied!` per failed paired condition,
nothing when all paired conditions pass. -/
theorem aggregate_check_zip_semantics :
    ∀ (k : Laue) (c : Mat) (e : ℚ) (cs : List Bool) (ts : List String),
      (symmetryConditions k c e = some cs → symmetryConditionsText k c = some ts →
        validate k c e = some (checkReport (cs.zip ts)) ∧
        ((checkReport (cs.zip ts)).1 = true ↔ ∀ p ∈ cs.zip ts, p.1 = true) ∧
        (checkReport (cs.zip ts)).2 =
          ((cs.zip ts).filter fun p => !p.1).map fun p => fmtLine p.2) ∧
      (nsConditions k c = some cs → nsConditionsText k c = some ts →
        checkNsConditions k c = some (checkReport (cs.zip ts)) ∧
        ((checkReport (cs.zip ts)).1 = true ↔ ∀ p ∈ cs.zip ts, p.1 = true) ∧
        (checkReport (cs.zip ts)).2 =
          ((cs.zip ts).filter fun p => !p.1).map fun p => fmtLine p.2) := by
  intro k c e cs ts
  constructor <;> intro h1 h2
  · refine ⟨?_, ?_, rfl⟩
    · simp [validate, h1, h2]
    · simp [checkReport, List.all_eq_true]
  · refine ⟨?_, ?_, rfl⟩
    · simp [checkNsConditions, h1, h2]
    · simp [checkReport, List.all_eq_true]

/-- C1 (witness): the amended aggregate contract instantiated on the
Hexagonal symmetry validator at the all-zero tensor. -/
theorem aggregate_check_zip_semantics_witness :
    validate Laue.hexagonal zeroMat 0 =
      some (checkReport ([true, true, true, true].zip
        ["C_{11} = C_{22}", "C_{44} = C_{55}", "C_{13} = C_{23}",
         "C_{66} = 1 / 2 (C_{11} - C_{12})"])) :=
  ((aggregate_check_zip_semantics Laue.hexagonal zeroMat 0 [true, true, true, true]
      ["C_{11} = C_{22}", "C_{44} = C_{55}", "C_{13} = C_{23}",
       "C_{66} = 1 / 2 (C_{11} - C_{12})"]).1
    (by norm_num [symmetryConditions, hexagonalSymmetryConditions, isclose, rabs, rtolDefault,
      zeroMat])
    rfl).1

/-- C2: `TriclinicSystem.ns_conditions` returns Python `None` instead of an
empty list, so `check_ns_conditions` raises `TypeError` at `zip(None, None)`
on every tensor — it does not return `true` vacuously. -/
theorem triclinic_stability_check_raises :
    ∀ c : Mat, nsConditions Laue.triclinic c = none ∧
      checkNsConditions Laue.triclinic c = none :=
  fun _ => ⟨rfl, rfl⟩

/-- C3: accessing the Cubic symmetry Condition Set raises `TypeError` on
every tensor (`np.array` is passed six positional scalar arguments), so no
boolean list is produced and `validate` raises too. -/
theorem cubic_symmetry_conditions_raise :
    ∀ (c : Mat) (e : ℚ), symmetryConditions Laue.cubic c e = none ∧
      validate Laue.cubic c e = none :=
  fun _ _ => ⟨rfl, rfl⟩

/-- C4: `MonoclinicSystem.ns_conditions` raises `TypeError` on every tensor,
because its seventh element applies Python's `^` (bitwise xor) to numpy
float64 values where the Born criterion squares were intended — so it never
evaluates seven booleans. -/
theorem monoclinic_stability_conditions_raise :
    ∀ c : Mat, nsConditions Laue.monoclinic c = none ∧
      checkNsConditions Laue.monoclinic c = none :=
  fun _ => ⟨rfl, rfl⟩

/-- C5 (counterexample): tiling the nine distinct nonzero values 1..9 into
the orthorhombic symmetric zero-pattern does NOT satisfy the
distinct-value-count condition — the pattern's structural zeros are a tenth
distinct entry. -/
theorem ortho_nine_distinct_tile_fails_count :
    decide (Function.Injective vNine) = true ∧
    decide (∀ k, vNine k ≠ 0) = true ∧
    orthorhombicCountCondition (orthoTile vNine) = false :=
  ⟨by decide, by decide, by decide⟩

/-- C5 (amended): a tensor tiled from 9 distinct scalar values one of which
is zero passes the distinct-value-count condition; replacing the governed
entry (0,1) of such a tile with an additional distinct value (leaving its
symmetric mate) makes the count condition false. -/
theorem ortho_tile_count_with_zero :
    (∀ v : Fin 9 → ℚ, Function.Injective v → (∃ k, v k = 0) →
      orthorhombicCountCondition (orthoTile v) = true) ∧
    orthorhombicCountCondition (orthoTile vNineZ) = true ∧
    orthorhombicCountCondition mutatedTile = false := by
  refine ⟨?_, by decide, by decide⟩
  rintro v hv ⟨k, hk⟩
  have hcount := uniqueCount_eq_card (orthoTile v)
  rw [orthoTile_image v] at hcount
  have h0 : (0 : ℚ) ∈ Finset.univ.image v := Finset.mem_image.mpr ⟨k, Finset.mem_univ k, hk⟩
  rw [Finset.union_eq_left.mpr (Finset.singleton_subset_iff.mpr h0)] at hcount
  rw [Finset.card_image_of_injective _ hv, Finset.card_univ] at hcount
  simp [orthorhombicCountCondition, hcount, Fintype.card_fin]

/-- C5 (witness): the tile of the nine distinct values 1..8, 0 passes the
count condition. -/
theorem ortho_tile_count_with_zero_witness :
    orthorhombicCountCondition (orthoTile vNineZ) = true :=
  ortho_tile_count_with_zero.1 vNineZ (by decide) ⟨8, by decide⟩

/-- C6 (counterexample): on a tensor with `c[0, 5] = 1` and tolerance 2, the
entry (0,5) is within tolerance of zero, yet the Tetragonal symmetry engine
selects the 4-condition Tetragonal-II set, not the 3-condition I set. -/
theorem tetragonal_selector_not_tolerance_based :
    isclose (tetraEx 0 5) 0 2 = true ∧
    decide (tetraEx 0 5 ≠ 0) = true ∧
    (symmetryConditions Laue.tetragonal tetraEx 2).map List.length = some 4 ∧
    (symmetryConditionsText Laue.tetragonal tetraEx).map List.length = some 4 := by
  have h : tetraEx 0 5 = 1 := by decide
  refine ⟨?_, by decide, ?_, ?_⟩ <;>
    norm_num [h, isclose, rabs, rtolDefault, symmetryConditions, tetragonalSymmetryConditions,
      symmetryConditionsText]

/-- C6 (amended): both Tetragonal engines select the Tetragonal-I condition
set exactly when entry (0,5) equals zero exactly, and the Tetragonal-II set
otherwise; the selection is a pure function of the currently-held tensor,
recomputed each time conditions are requested. -/
theorem tetragonal_selector_exact_zero :
    ∀ (c : Mat) (e : ℚ),
      (c 0 5 = 0 →
        symmetryConditions Laue.tetragonal c e =
          some [isclose (c 0 0) (c 1 1) e, isclose (c 3 3) (c 4 4) e,
            isclose (c 0 2) (c 1 2) e] ∧
        nsConditions Laue.tetragonal c =
          some [decide (c 0 0 > rabs (c 0 1)), decide (2 * (c 0 2) ^ 2 < c 2 2 * (c 0 0 + c 0 1)),
            decide (c 3 3 > 0), decide (c 5 5 > 0)]) ∧
      (c 0 5 ≠ 0 →
        symmetryConditions Laue.tetragonal c e =
          some [isclose (c 0 0) (c 1 1) e, isclose (c 3 3) (c 4 4) e,
            isclose (c 0 2) (c 1 2) e, isclose (c 0 5) (-c 1 5) e] ∧
        nsConditions Laue.tetragonal c =
          some [decide (c 0 0 > rabs (c 0 1)), decide (2 * (c 0 2) ^ 2 < c 2 2 * (c 0 0 + c 0 1)),
            decide (c 3 3 > 0), decide (2 * (c 0 5) ^ 2 < c 5 5 * (c 0 0 - c 0 1))]) := by
  intro c e
  constructor <;> intro h <;>
    simp [symmetryConditions, tetragonalSymmetryConditions, nsConditions,
      tetragonalNsConditions, h]

/-- C6 (witness): the exact-zero selection instantiated on the all-zero
tensor, whose entry (0,5) is exactly zero. -/
theorem tetragonal_selector_exact_zero_witness :
    symmetryConditions Laue.tetragonal zeroMat 0 =
      some [isclose (zeroMat 0 0) (zeroMat 1 1) 0, isclose (zeroMat 3 3) (zeroMat 4 4) 0,
        isclose (zeroMat 0 2) (zeroMat 1 2) 0] ∧
    nsConditions Laue.tetragonal zeroMat =
      some [decide (zeroMat 0 0 > rabs (zeroMat 0 1)),
        decide (2 * (zeroMat 0 2) ^ 2 < zeroMat 2 2 * (zeroMat 0 0 + zeroMat 0 1)),
        decide (zeroMat 3 3 > 0), decide (zeroMat 5 5 > 0)] :=
  (tetragonal_selector_exact_zero zeroMat 0).1 rfl

/-- C7: the Rhombohedral symmetry validator yields the 5-condition
Rhombohedral-I set exactly when entry (0,4) is exactly zero and the
6-condition Rhombohedral-II set otherwise, and the two variants share their
first three conditions (`C00 ≈ C11`, `C33 ≈ C44`, `C02 ≈ C12`) verbatim. -/
theorem rhombohedral_variant_selection :
    ∀ (c : Mat) (e : ℚ),
      (c 0 4 = 0 →
        symmetryConditions Laue.rhombohedral c e = some (rhombohedralSymmetryCondsI c e) ∧
        (rhombohedralSymmetryCondsI c e).length = 5) ∧
      (c 0 4 ≠ 0 →
        symmetryConditions Laue.rhombohedral c e = some (rhombohedralSymmetryCondsII c e) ∧
        (rhombohedralSymmetryCondsII c e).length = 6) ∧
      (rhombohedralSymmetryCondsI c e).take 3 = (rhombohedralSymmetryCondsII c e).take 3 ∧
      (rhombohedralSymmetryCondsI c e).take 3 =
        [isclose (c 0 0) (c 1 1) e, isclose (c 3 3) (c 4 4) e, isclose (c 0 2) (c 1 2) e] := by
  intro c e
  refine ⟨fun h => ⟨?_, rfl⟩, fun h => ⟨?_, rfl⟩, rfl, rfl⟩ <;>
    simp [symmetryConditions, rhombohedralSymmetryConditions, h]

/-- C7 (witness): the variant selection instantiated on a tensor with
`c[0, 4] = 0` (the all-zero tensor) and one with `c[0, 4] = 1`. -/
theorem rhombohedral_variant_selection_witness :
    (symmetryConditions Laue.rhombohedral zeroMat 0 =
        some (rhombohedralSymmetryCondsI zeroMat 0) ∧
      (rhombohedralSymmetryCondsI zeroMat 0).length = 5) ∧
    (symmetryConditions Laue.rhombohedral rhombEx 0 =
        some (rhombohedralSymmetryCondsII rhombEx 0) ∧
      (rhombohedralSymmetryCondsII rhombEx 0).length = 6) :=
  ⟨(rhombohedral_variant_selection zeroMat 0).1 rfl,
   (rhombohedral_variant_selection rhombEx 0).2.1 (by decide)⟩

/-- C8: every Symmetry Condition of every class rule set is monotone in the
tolerance — if a condition holds at tolerance `e₁` with `e₂ > e₁ ≥ 0`, it
also holds at `e₂` (position by position over the condition lists). -/
theorem symmetry_tolerance_monotone :
    ∀ (k : Laue) (c : Mat) (e₁ e₂ : ℚ) (l₁ l₂ : List Bool),
      0 ≤ e₁ → e₁ < e₂ →
      symmetryConditions k c e₁ = some l₁ → symmetryConditions k c e₂ = some l₂ →
      List.Forall₂ (fun a b => a = true → b = true) l₁ l₂ := by
  intro k c e₁ e₂ l₁ l₂ _h0 hlt h1 h2
  have he : e₁ ≤ e₂ := le_of_lt hlt
  cases k
  case cubic => simp [symmetryConditions, cubicSymmetryConditions] at h1
  case hexagonal =>
    simp only [symmetryConditions, hexagonalSymmetryConditions, Option.some.injEq] at h1 h2
    subst h1; subst h2
    exact .cons (isclose_mono he) (.cons (isclose_mono he)
      (.cons (isclose_mono he) (.cons (isclose_mono he) .nil)))
  case tetragonal =>
    by_cases h05 : c 0 5 = 0 <;>
      simp only [symmetryConditions, tetragonalSymmetryConditions, h05, if_true, if_false,
        reduceIte, Option.some.injEq] at h1 h2 <;>
      subst h1 <;> subst h2
    · exact .cons (isclose_mono he) (.cons (isclose_mono he)
        (.cons (isclose_mono he) .nil))
    · exact .cons (isclose_mono he) (.cons (isclose_mono he)
        (.cons (isclose_mono he) (.cons (isclose_mono he) .nil)))
  case rhombohedral =>
    by_cases h04 : c 0 4 = 0 <;>
      simp only [symmetryConditions, rhombohedralSymmetryConditions, h04, if_true, if_false,
        reduceIte, Option.some.injEq, rhombohedralSymmetryCondsI,
        rhombohedralSymmetryCondsII] at h1 h2 <;>
      subst h1 <;> subst h2
    · exact .cons (isclose_mono he) (.cons (isclose_mono he) (.cons (isclose_mono he)
        (.cons (isclose_mono he) (.cons (andClose_mono he) .nil))))
    · exact .cons (isclose_mono he) (.cons (isclose_mono he) (.cons (isclose_mono he)
        (.cons (isclose_mono he) (.cons (andClose_mono he) (.cons (andClose_mono he) .nil)))))
  case orthorhombic =>
    simp only [symmetryConditions, orthorhombicSymmetryConditions, Option.some.injEq] at h1 h2
    subst h1; subst h2
    exact .cons (allcloseZero_mono he) (.cons (allcloseZero_mono he)
      (.cons (allcloseZero_mono he) (.cons (fun h => h) .nil)))
  case monoclinic =>
    simp only [symmetryConditions, monoclinicSymmetryConditions, Option.some.injEq] at h1 h2
    subst h1; subst h2
    refine .cons (allcloseZero_mono he) (.cons (rabs_lt_mono he)
      (.cons ?_ (.cons (fun h => h) .nil)))
    intro h
    simp only [Bool.and_eq_true] at h ⊢
    exact ⟨allcloseZero_mono he h.1, rabs_lt_mono he h.2⟩
  case triclinic =>
    simp only [symmetryConditions, triclinicSymmetryConditions, Option.some.injEq] at h1 h2
    subst h1; subst h2
    exact .cons (fun h => h) .nil

/-- C8 (witness): tolerance monotonicity instantiated on the Hexagonal rule
set at the all-zero tensor with tolerances 0 and 1. -/
theorem symmetry_tolerance_monotone_witness :
    List.Forall₂ (fun a b => a = true → b = true)
      [true, true, true, true] [true, true, true, true] :=
  symmetry_tolerance_monotone Laue.hexagonal zeroMat 0 1
    [true, true, true, true] [true, true, true, true]
    le_rfl one_pos
    (by norm_num [symmetryConditions, hexagonalSymmetryConditions, isclose, rabs, rtolDefault,
      zeroMat])
    (by norm_num [symmetryConditions, hexagonalSymmetryConditions, isclose, rabs, rtolDefault,
      zeroMat])

/-- C9: the tolerance defaults to `1e-8`; assigning a non-numeric value
raises and leaves the stored tolerance unchanged; assigning a numeric value
of magnitude above 1 warns, does not raise, and the assignment takes
effect. -/
theorem eps_default_and_setter :
    ∀ (m : Mat) (s : SMState) (x : ℚ),
      (initState m).eps = 1 / 100000000 ∧
      setEps s EpsInput.nonNumeric = { state := s, raised := true, warned := false } ∧
      (1 < rabs x →
        (setEps s (EpsInput.num x)).raised = false ∧
        (setEps s (EpsInput.num x)).warned = true ∧
        (setEps s (EpsInput.num x)).state.eps = x) := by
  intro m s x
  refine ⟨rfl, rfl, fun h => ⟨rfl, ?_, rfl⟩⟩
  simp [setEps, h]

/-- C9 (witness): the setter contract instantiated at the numeric value 2,
whose magnitude exceeds 1. -/
theorem eps_default_and_setter_witness :
    (initState zeroMat).eps = 1 / 100000000 ∧
    (setEps (initState zeroMat) (EpsInput.num 2)).raised = false ∧
    (setEps (initState zeroMat) (EpsInput.num 2)).warned = true ∧
    (setEps (initState zeroMat) (EpsInput.num 2)).state.eps = 2 :=
  ⟨(eps_default_and_setter zeroMat (initState zeroMat) 2).1,
   ((eps_default_and_setter zeroMat (initState zeroMat) 2).2.2 (by decide)).1,
   ((eps_default_and_setter zeroMat (initState zeroMat) 2).2.2 (by decide)).2.1,
   ((eps_default_and_setter zeroMat (initState zeroMat) 2).2.2 (by decide)).2.2⟩

/-- C10: the Orthorhombic symmetry description list has only three strings
(two adjacent literals merge), so `validate` pairs only the three
zero-pattern conditions with descriptions: its returned flag is true iff
those three hold and its report lists only their failures — the
9-distinct-values condition never affects either. -/
theorem ortho_validate_drops_count_condition :
    ∀ (c : Mat) (e : ℚ) (r : Bool × List String),
      validate Laue.orthorhombic c e = some r →
      (symmetryConditionsText Laue.orthorhombic c).map List.length = some 3 ∧
      (r.1 = true ↔ (allcloseZero [c 0 3, c 1 3, c 2 3] e = true ∧
        allcloseZero [c 0 4, c 1 4, c 2 4, c 3 4] e = true ∧
        allcloseZero [c 0 5, c 1 5, c 2 5, c 3 5, c 4 5] e = true)) ∧
      r.2 = (([
          (allcloseZero [c 0 3, c 1 3, c 2 3] e, "C_{14} = C_{24} = C_{34} = 0"),
          (allcloseZero [c 0 4, c 1 4, c 2 4, c 3 4] e, "C_{15} = C_{25} = C_{35} = C_{45} = 0"),
          (allcloseZero [c 0 5, c 1 5, c 2 5, c 3 5, c 4 5] e,
            "C_{16} = C_{26} = C_{36} = C_{46} = C_{56} = 0There are 9 independent values.")
        ].filter fun p => !p.1).map fun p => fmtLine p.2) := by
  intro c e r h
  simp only [validate, symmetryConditions, orthorhombicSymmetryConditions,
    symmetryConditionsText, List.zip, List.zipWith, Option.some.injEq] at h
  subst h
  refine ⟨rfl, ?_, rfl⟩
  simp [checkReport, List.all_eq_true, and_assoc]

/-- C10 (witness): the truncated-report contract instantiated on the
all-zero tensor, where `validate` returns `(True, no output)`. -/
theorem ortho_validate_drops_count_condition_witness :
    ((true : Bool) = true ↔
      (allcloseZero [zeroMat 0 3, zeroMat 1 3, zeroMat 2 3] 0 = true ∧
        allcloseZero [zeroMat 0 4, zeroMat 1 4, zeroMat 2 4, zeroMat 3 4] 0 = true ∧
        allcloseZero [zeroMat 0 5, zeroMat 1 5, zeroMat 2 5, zeroMat 3 5, zeroMat 4 5] 0 = true)) :=
  (ortho_validate_drops_count_condition zeroMat 0 (true, [])
    (by
      have hu : uniqueCount zeroMat = 1 := by decide
      norm_num [validate, symmetryConditions, orthorhombicSymmetryConditions,
        symmetryConditionsText, orthorhombicCountCondition, allcloseZero, isclose, rabs,
        rtolDefault, checkReport, zeroMat, hu])).2.1

end Escpy
